import Mathlib

/-!
Shallow embedding of `src/hawkeye.js` (an alerting engine: a Signal family —
audio alarm, visual blinker, their composition — driven by a change watcher
with a startup-debounce filter) and proofs about it.

Modelling conventions:
* Timestamps and timer handles are `Nat`; `setInterval` allocates a fresh
  handle from a counter and records it in a list of live intervals,
  `clearInterval` removes it.
* A DOM element's `classList` is a `List String`; `classList.add` appends
  when absent, `classList.remove` filters (DOMTokenList semantics).
* The set of all elements' class lists is a function `Nat → List String`
  indexed by element id.
* JavaScript closure state (the debounce's `first`/`early`/`mark`, a
  signal's `timer`/`i`/`targets`) becomes explicit state records, and each
  function of the source becomes a state transformer.
-/

namespace Hawkeye

/-- DOMTokenList `add`: append the class when it is not already present. -/
def classAdd (c : String) (l : List String) : List String :=
  if c ∈ l then l else l ++ [c]

/-- DOMTokenList `remove`: drop every occurrence of the class. -/
def classRemove (c : String) (l : List String) : List String :=
  l.filter (fun x => x != c)

/-- The timer / DOM environment: a counter for fresh interval handles, the
list of currently live intervals, and every element's class list. -/
structure Env where
  nextTimer : Nat
  active : List Nat
  classes : Nat → List String

/-- A convenient empty environment (no live timers, all class lists empty). -/
def env0 : Env :=
  { nextTimer := 0, active := [], classes := fun _ => [] }

/-! ### Startup debounce (`ignore_too_early_call`, hawkeye.js lines 190–204) -/

/-- The mutable closure state of `ignore_too_early_call`: `let first = true;
let early = true;` (`mark` is fixed at wrap time and passed separately). -/
structure DebState where
  first : Bool
  early : Bool
deriving DecidableEq, Repr

/-- Closure state at wrap time: `first = true`, `early = true`. -/
def debInit : DebState := { first := true, early := true }

/-- One invocation of the function returned by `ignore_too_early_call(fnct,
delta)` at time `now`, with wrap-time `mark`.  Returns the updated closure
state and whether `fnct` was invoked.  Mirrors the source:
`if (Date.now() - mark <= delta) { early = true; }
 if (!early || !first) { fnct(); }
 first = false;`  (note: `early` is never assigned `false` anywhere). -/
def ignore_too_early_call (delta mark : Nat) (st : DebState) (now : Nat) :
    DebState × Bool :=
  let early := if now - mark ≤ delta then true else st.early
  let invoke := (!early || !st.first)
  ({ first := false, early := early }, invoke)

/-! ### Signal base, AudioSignal, BlinkerSignal (hawkeye.js lines 216–387) -/

/-- AudioSignal closure state: the `timer` handle, the target collection
inherited from `Signal()` (unused by start/stop but mutated by add/empty),
and an abstract view of the one `Audio` element: how many times `play()`
was called and whether a playback is in progress. -/
structure AudioSig where
  timer : Option Nat
  targets : List Nat
  plays : Nat
  playing : Bool
deriving DecidableEq, Repr

/-- `audio.play()`: starts (another) playback of the audio resource. -/
def audioPlay (a : AudioSig) : AudioSig :=
  { a with plays := a.plays + 1, playing := true }

/-- `AudioSignal.start`: `if (timer === undefined) { audio.play();
timer = setInterval(...); }`. -/
def audioStart (a : AudioSig) (e : Env) : AudioSig × Env :=
  if a.timer = none then
    ({ audioPlay a with timer := some e.nextTimer },
     { e with active := e.active ++ [e.nextTimer], nextTimer := e.nextTimer + 1 })
  else (a, e)

/-- `AudioSignal.stop`: `if (timer !== undefined) { clearInterval(timer);
timer = undefined; }`.  The audio element itself is never touched. -/
def audioStop (a : AudioSig) (e : Env) : AudioSig × Env :=
  match a.timer with
  | some t => ({ a with timer := none }, { e with active := e.active.filter (fun x => x != t) })
  | none => (a, e)

/-- One firing of the interval callback `function() { audio.play(); }`.
`playFails` is the environment's choice of whether this `play()` call
fails; a failure surfaces as the returned error.  The callback body never
touches `timer` and never calls `clearInterval`, and an exception escaping
an interval callback does not cancel the interval (host event-loop
semantics), so the schedule state is returned unchanged either way. -/
def audioTick (playFails : Bool) (a : AudioSig) (e : Env) :
    (AudioSig × Env) × Option String :=
  if playFails then ((a, e), some ("play failed"))
  else ((audioPlay a, e), none)

/-- BlinkerSignal closure state: `timer`, cursor `i`, and the `targets`
array shared with the `Signal()` base. -/
structure Blinker where
  timer : Option Nat
  i : Nat
  targets : List Nat
deriving DecidableEq, Repr

/-- Paint one class list according to the current pattern character:
`if (pattern[i] == "-") { remove(off); add(on); } else { remove(on);
add(off); }`. -/
def paintOne (onc offc : String) (dash : Bool) (l : List String) : List String :=
  if dash then classAdd onc (classRemove offc l)
  else classAdd offc (classRemove onc l)

/-- `targets.forEach(...)` of `BlinkerSignal.update`: paint every target's
class list (later list entries painted later). -/
def paintTargets (onc offc : String) (dash : Bool) (ts : List Nat)
    (cls : Nat → List String) : Nat → List String :=
  ts.foldl (fun acc tid => Function.update acc tid (paintOne onc offc dash (acc tid))) cls

/-- `BlinkerSignal.update`: paint every target from `pattern[i]`, then
`i = (i + 1) % pattern.length`.  Out-of-range lookup yields the default
(non-dash) character, matching `undefined == "-"` being false in JS. -/
def blinkUpdate (onc offc : String) (pattern : List Char) (b : Blinker) (e : Env) :
    Blinker × Env :=
  ({ b with i := (b.i + 1) % pattern.length },
   { e with classes := paintTargets onc offc (pattern.getD b.i (Char.ofNat 32) == '-') b.targets e.classes })

/-- `BlinkerSignal.start`: `if (timer === undefined) { timer =
setInterval(update, time); }`. -/
def blinkStart (b : Blinker) (e : Env) : Blinker × Env :=
  if b.timer = none then
    ({ b with timer := some e.nextTimer },
     { e with active := e.active ++ [e.nextTimer], nextTimer := e.nextTimer + 1 })
  else (b, e)

/-- `BlinkerSignal.stop`: `if (timer !== undefined) { clearInterval(timer);
timer = undefined; } i = 0; update();`. -/
def blinkStop (onc offc : String) (pattern : List Char) (b : Blinker) (e : Env) :
    Blinker × Env :=
  let be : Blinker × Env :=
    match b.timer with
    | some t => ({ b with timer := none }, { e with active := e.active.filter (fun x => x != t) })
    | none => (b, e)
  blinkUpdate onc offc pattern { be.1 with i := 0 } be.2

/-- `Signal().add` as inherited by BlinkerSignal: push onto `targets`. -/
def blinkAdd (tid : Nat) (b : Blinker) : Blinker :=
  { b with targets := b.targets ++ [tid] }

/-- `Signal().empty` as inherited by BlinkerSignal: splice `targets` empty. -/
def blinkEmpty (b : Blinker) : Blinker :=
  { b with targets := [] }

/-- `Signal().add` as inherited by AudioSignal. -/
def audioAdd (tid : Nat) (a : AudioSig) : AudioSig :=
  { a with targets := a.targets ++ [tid] }

/-- `Signal().empty` as inherited by AudioSignal. -/
def audioEmpty (a : AudioSig) : AudioSig :=
  { a with targets := [] }

/-- `BlinkerSignal` construction: fresh base state, then the constructor
body runs `stop()` once (cursor set, targets painted — vacuously, as no
target has been added yet). -/
def blinkInit (onc offc : String) (pattern : List Char) (e : Env) : Blinker × Env :=
  blinkStop onc offc pattern { timer := none, i := 0, targets := [] } e

/-! ### ComposeSignal (hawkeye.js lines 240–266)

`ComposeSignal(signals)` fans each of `start`/`stop`/`add`/`empty` out to
every sub-signal with `signals.forEach(...)`, synchronously and with no
exception isolation.  We model a sub-signal abstractly as a record of four
fallible state transformers on a world `σ`: each returns the updated world
together with an optional error, because a JavaScript exception propagates
out of `forEach` while the side effects already performed persist. -/

/-- A signal's operation surface, over an abstract world `σ` with errors
`ε`: the four operations returned by the signal factories. -/
structure SigOps (σ ε : Type) where
  start : σ → σ × Option ε
  stop : σ → σ × Option ε
  add : Nat → σ → σ × Option ε
  empty : σ → σ × Option ε

/-- `list.forEach(x => f(x))` under JavaScript exception semantics: run the
calls left to right; the first error aborts the remaining calls but keeps
the state mutations already made. -/
def forEachSt {α σ ε : Type} (f : α → σ → σ × Option ε) :
    List α → σ → σ × Option ε
  | [], s => (s, none)
  | a :: as, s =>
    match f a s with
    | (s1, none) => forEachSt f as s1
    | (s1, some err) => (s1, some err)

/-- `ComposeSignal(signals)`: every operation is the corresponding
operation of each sub-signal, invoked in list order via `forEach`. -/
def ComposeSignal {σ ε : Type} (signals : List (SigOps σ ε)) : SigOps σ ε where
  start := forEachSt (fun g => g.start) signals
  stop := forEachSt (fun g => g.stop) signals
  add elem := forEachSt (fun g => g.add elem) signals
  empty := forEachSt (fun g => g.empty) signals

/-- Select one of the four operations by code (0 = start, 1 = stop,
2 = add, 3 = empty), so one statement can range over all of them. -/
def opApply {σ ε : Type} (c : Nat) (g : SigOps σ ε) : σ → σ × Option ε :=
  match c with
  | 0 => g.start
  | 1 => g.stop
  | 2 => g.add 0
  | 3 => g.empty
  | _ => fun s => (s, none)

/-- An instrumented sub-signal for invocation-order recording: the world is
an abstract payload `ρ` paired with a trace of `(signal id, op code)`
entries.  Each operation appends its entry to the trace and then behaves
as `bhv id code` on the payload. -/
def recSig {ρ ε : Type} (bhv : Nat → Nat → ρ → ρ × Option ε) (i : Nat) :
    SigOps (ρ × List (Nat × Nat)) ε where
  start := fun w => (((bhv i 0 w.1).1, w.2 ++ [(i, 0)]), (bhv i 0 w.1).2)
  stop := fun w => (((bhv i 1 w.1).1, w.2 ++ [(i, 1)]), (bhv i 1 w.1).2)
  add := fun _ w => (((bhv i 2 w.1).1, w.2 ++ [(i, 2)]), (bhv i 2 w.1).2)
  empty := fun w => (((bhv i 3 w.1).1, w.2 ++ [(i, 3)]), (bhv i 3 w.1).2)

/-- The behaviour of `recSig` under an arbitrary op code, as a plain
function. -/
def instOp {ρ ε : Type} (bhv : Nat → Nat → ρ → ρ × Option ε) (c i : Nat) :
    ρ × List (Nat × Nat) → (ρ × List (Nat × Nat)) × Option ε :=
  fun w => (((bhv i c w.1).1, w.2 ++ [(i, c)]), (bhv i c w.1).2)

/-! ### The watcher system (`Hawkeye`, hawkeye.js lines 158–207)

The concrete composed signal is `ComposeSignal([sos, alarm])`; here the
fan-out is unrolled over the two concrete signals, in that list order.
`Sys` is the whole closed system: timer/DOM environment, the two signal
states, the debounce closure, and which subscriptions are live. -/

/-- The debounce window hard-coded at observer creation:
`ignore_too_early_call(signal.start, 3000)`. -/
def delta : Nat := 3000

/-- Whole-system state for one `Hawkeye(source, targets, signal)` instance
driving `ComposeSignal([sos, alarm])`. -/
structure Sys where
  env : Env
  sos : Blinker
  alarm : AudioSig
  deb : DebState
  mark : Nat
  observing : Bool
  sourceClick : Bool
  clickSubs : List Nat

/-- `signal.start` for the composed signal: `sos.start()` then
`alarm.start()` (ComposeSignal list order). -/
def sigStart (s : Sys) : Sys :=
  let be := blinkStart s.sos s.env
  let ae := audioStart s.alarm be.2
  { s with sos := be.1, alarm := ae.1, env := ae.2 }

/-- `signal.stop` for the composed signal: `sos.stop()` then
`alarm.stop()`. -/
def sigStop (onc offc : String) (pattern : List Char) (s : Sys) : Sys :=
  let be := blinkStop onc offc pattern s.sos s.env
  let ae := audioStop s.alarm be.2
  { s with sos := be.1, alarm := ae.1, env := ae.2 }

/-- `signal.add(elem)` for the composed signal. -/
def sigAdd (tid : Nat) (s : Sys) : Sys :=
  { s with sos := blinkAdd tid s.sos, alarm := audioAdd tid s.alarm }

/-- `signal.empty()` for the composed signal. -/
def sigEmpty (s : Sys) : Sys :=
  { s with sos := blinkEmpty s.sos, alarm := audioEmpty s.alarm }

/-- `Hawkeye(...).connect()`: start observing the source, add a click
handler on the source, and for each watcher target `signal.add(elem)`
plus a click handler (`addEventListener` ignores an exact duplicate
listener registration). -/
def connect (T : List Nat) (s : Sys) : Sys :=
  let s1 := { s with observing := true, sourceClick := true }
  T.foldl
    (fun acc tid =>
      let acc1 := sigAdd tid acc
      { acc1 with clickSubs :=
          if tid ∈ acc1.clickSubs then acc1.clickSubs else acc1.clickSubs ++ [tid] })
    s1

/-- `Hawkeye(...).disconnect()`: `observer.disconnect()`, remove the
source's click handler, remove each target's click handler, then
`signal.stop(); signal.empty();`. -/
def disconnect (onc offc : String) (pattern : List Char) (T : List Nat) (s : Sys) : Sys :=
  let s1 := { s with observing := false, sourceClick := false,
                     clickSubs := s.clickSubs.filter (fun t => !(T.contains t)) }
  sigEmpty (sigStop onc offc pattern s1)

/-- Delivery of a structural-change notification at time `now`: when the
observer subscription is live, run the debounce-wrapped `signal.start`;
otherwise nothing happens. -/
def deliverChange (now : Nat) (s : Sys) : Sys :=
  if s.observing then
    let di := ignore_too_early_call delta s.mark s.deb now
    let s1 := { s with deb := di.1 }
    if di.2 then sigStart s1 else s1
  else s

/-- Delivery of a click on the source node: when the click handler is
subscribed, run `signal.stop`. -/
def deliverSourceClick (onc offc : String) (pattern : List Char) (s : Sys) : Sys :=
  if s.sourceClick then sigStop onc offc pattern s else s

/-- `Hawkeye` construction over freshly built signals: the blinker's
constructor has run its initial `stop()`, the alarm is unarmed, the
debounce closure is at `debInit` with `mark` taken at wrap time, and no
subscription is live yet. -/
def hawkInit (onc offc : String) (pattern : List Char) (mark : Nat) : Sys :=
  let be := blinkInit onc offc pattern env0
  { env := be.2, sos := be.1,
    alarm := { timer := none, targets := [], plays := 0, playing := false },
    deb := debInit, mark := mark,
    observing := false, sourceClick := false, clickSubs := [] }

/-- Well-formedness of a system state: the live-interval list is exactly
the two signals' handles (blinker's first, in allocation bookkeeping
order), and when both are armed their handles differ. -/
def wf (s : Sys) : Prop :=
  s.env.active = s.sos.timer.toList ++ s.alarm.timer.toList ∧
  (s.sos.timer = none ∨ s.alarm.timer = none ∨ s.sos.timer ≠ s.alarm.timer)

/-! ### The controller (`nagios_hawk`, hawkeye.js lines 48–123)

Object identity is modelled by allocation: every `new`-like construction
takes the next id from a counter.  `nagios_hawk`'s body allocates `sos`,
`alarm` and `signal` once; `attack()` allocates a fresh `Hawkeye` watcher
(`observer = Hawkeye(source, targets, signal)`) but closes over the same
`signal`. -/

/-- Controller state: the allocation counter, the ids of the three signal
objects built in `nagios_hawk`'s body, and the currently held watcher. -/
structure HawkCtrl where
  nextId : Nat
  sosId : Nat
  alarmId : Nat
  signalId : Nat
  observer : Option Nat
deriving DecidableEq, Repr

/-- `nagios_hawk(document)` body: `sos = BlinkerSignal(...)`,
`alarm = AudioSignal(...)`, `signal = ComposeSignal([sos, alarm])` are
each allocated exactly once, before `attack` ever runs; no watcher yet. -/
def nagios_hawk_init : HawkCtrl :=
  { nextId := 3, sosId := 0, alarmId := 1, signalId := 2, observer := none }

/-- `attack()`: `observer = Hawkeye(source, targets, signal)` allocates a
brand-new watcher, closing over the `signal` allocated at construction.
Returns (new controller state, watcher id, id of the Signal handed to the
watcher). -/
def attack (c : HawkCtrl) : HawkCtrl × Nat × Nat :=
  ({ c with nextId := c.nextId + 1, observer := some c.nextId }, c.nextId, c.signalId)

/-! ### Class-list lemmas for the blinker's visible state -/

/-- The flag combination pattern position `i` demands from a class list:
on a dash the on-class is present and the off-class absent, otherwise the
off-class is present and the on-class absent. -/
def flagProp (onc offc : String) (dash : Bool) (l : List String) : Prop :=
  (dash = true → onc ∈ l ∧ offc ∉ l) ∧ (dash = false → offc ∈ l ∧ onc ∉ l)

instance (onc offc : String) (dash : Bool) (l : List String) :
    Decidable (flagProp onc offc dash l) := by
  unfold flagProp; infer_instance

theorem mem_classAdd_self (c : String) (l : List String) : c ∈ classAdd c l := by
  unfold classAdd; split
  · assumption
  · simp

theorem mem_classAdd_iff {c d : String} (h : d ≠ c) (l : List String) :
    d ∈ classAdd c l ↔ d ∈ l := by
  unfold classAdd; split
  · exact Iff.rfl
  · simp [h]

theorem not_mem_classRemove (c : String) (l : List String) : c ∉ classRemove c l := by
  simp [classRemove]

theorem classRemove_eq_of_not_mem {c : String} {l : List String} (h : c ∉ l) :
    classRemove c l = l := by
  refine List.filter_eq_self.mpr fun a ha => ?_
  have hne : a ≠ c := fun hac => h (hac ▸ ha)
  simpa using hne

theorem classAdd_of_mem {c : String} {l : List String} (h : c ∈ l) :
    classAdd c l = l := by
  simp [classAdd, h]

theorem classAdd_idem (c : String) (l : List String) :
    classAdd c (classAdd c l) = classAdd c l :=
  classAdd_of_mem (mem_classAdd_self c l)

/-- Applying remove-`b`-then-add-`a` twice is the same as applying it
once, for distinct class names. -/
theorem addRemove_idem {a b : String} (h : a ≠ b) (l : List String) :
    classAdd a (classRemove b (classAdd a (classRemove b l))) =
      classAdd a (classRemove b l) := by
  have hb : b ∉ classAdd a (classRemove b l) := by
    rw [mem_classAdd_iff (Ne.symm h)]
    exact not_mem_classRemove b l
  rw [classRemove_eq_of_not_mem hb, classAdd_idem]

/-- Remove-`b`-then-add-`a` yields a list containing `a` and not `b`, for
distinct class names, whatever the previous class list was. -/
theorem addRemove_mem {a b : String} (h : a ≠ b) (l : List String) :
    a ∈ classAdd a (classRemove b l) ∧ b ∉ classAdd a (classRemove b l) :=
  ⟨mem_classAdd_self _ _, by
    rw [mem_classAdd_iff (Ne.symm h)]
    exact not_mem_classRemove _ _⟩

/-- One paint establishes the demanded flag combination, whatever the
previous class list was. -/
theorem paintOne_flagProp {onc offc : String} (h : onc ≠ offc) (dash : Bool)
    (l : List String) : flagProp onc offc dash (paintOne onc offc dash l) := by
  cases dash
  · exact ⟨by simp, fun _ => addRemove_mem (Ne.symm h) l⟩
  · exact ⟨fun _ => addRemove_mem h l, by simp⟩

/-- Painting is idempotent on a single class list. -/
theorem paintOne_idem {onc offc : String} (h : onc ≠ offc) (dash : Bool)
    (l : List String) :
    paintOne onc offc dash (paintOne onc offc dash l) = paintOne onc offc dash l := by
  cases dash
  · exact addRemove_idem (Ne.symm h) l
  · exact addRemove_idem h l

/-- Pointwise characterisation of `update()`'s `forEach` paint: an element
in the target collection ends up painted once from its previous class
list (duplicates collapse by idempotence), every other element is
untouched. -/
theorem paintTargets_apply {onc offc : String} (h : onc ≠ offc) (dash : Bool)
    (ts : List Nat) (cls : Nat → List String) (tid : Nat) :
    paintTargets onc offc dash ts cls tid =
      if tid ∈ ts then paintOne onc offc dash (cls tid) else cls tid := by
  induction ts generalizing cls with
  | nil => simp [paintTargets]
  | cons t ts ih =>
    have step : paintTargets onc offc dash (t :: ts) cls =
        paintTargets onc offc dash ts
          (Function.update cls t (paintOne onc offc dash (cls t))) := rfl
    rw [step, ih]
    by_cases htt : tid = t
    · subst htt
      simp only [Function.update_same, List.mem_cons, true_or, if_pos, or_self_left]
      split
      · exact paintOne_idem h dash (cls tid)
      · rfl
    · rw [Function.update_noteq htt]
      simp [List.mem_cons, htt]

/-- The class lists after `BlinkerSignal.stop()`: every target repainted
from pattern position 0 (the cursor is 0 at the moment `update()` reads
the pattern inside `stop()`). -/
theorem blinkStop_classes (onc offc : String) (pattern : List Char) (b : Blinker)
    (e : Env) :
    (blinkStop onc offc pattern b e).2.classes =
      paintTargets onc offc (pattern.getD 0 (Char.ofNat 32) == '-') b.targets e.classes := by
  cases h : b.timer <;> simp [blinkStop, blinkUpdate, h]

/-- `stop()` does not change the target collection. -/
theorem blinkStop_targets (onc offc : String) (pattern : List Char) (b : Blinker)
    (e : Env) : (blinkStop onc offc pattern b e).1.targets = b.targets := by
  cases h : b.timer <;> simp [blinkStop, blinkUpdate, h]

/-! ## Claims -/

/-- C1: the spec says a first invocation of the startup-debounce wrapper
arriving after the window has elapsed (`now - mark > delta`, delta = 3000)
invokes the wrapped trigger.  The code refutes this: `early` is
initialized `true` and never assigned `false`, so the gate
`!early || !first` is false on every first call.  Here the first
invocation happens at `now = 5000` with `mark = 0` — well past the window
— and the wrapped function is still not invoked. -/
theorem debounce_drops_late_first_call :
    delta < 5000 - 0 ∧ (ignore_too_early_call delta 0 debInit 5000).2 = false := by
  decide

/-- C2: for the startup-debounce wrapper, a first invocation inside the
window (`now - mark ≤ delta`) does not invoke the wrapped function; every
invocation leaves the closure with `first = false`; and from any state
with `first = false` (i.e. from the second invocation onward) the wrapped
function is always invoked, regardless of elapsed time. -/
theorem debounce_window_checks_only_first_call (d mark now now2 : Nat) (st : DebState)
    (hin : now - mark ≤ d) :
    (ignore_too_early_call d mark debInit now).2 = false ∧
    (ignore_too_early_call d mark st now).1.first = false ∧
    (st.first = false → (ignore_too_early_call d mark st now2).2 = true) := by
  refine ⟨?_, rfl, fun h => ?_⟩
  · simp [ignore_too_early_call, debInit, hin]
  · simp [ignore_too_early_call, h]

/-- C2 witness: with `mark = 0`, `delta = 3000`, a first trigger at
`t = 1000` (inside the window) is suppressed, and a second trigger at
`t = 1500` (still inside the window) is passed through. -/
theorem debounce_window_checks_only_first_call_witness :
    (ignore_too_early_call 3000 0 debInit 1000).2 = false ∧
    (ignore_too_early_call 3000 0 { first := false, early := true } 1500).2 = true :=
  ⟨(debounce_window_checks_only_first_call 3000 0 1000 1500 debInit (by decide)).1,
   (debounce_window_checks_only_first_call 3000 0 1000 1500
      { first := false, early := true } (by decide)).2.2 rfl⟩

/-- C3 counterexample: the claim says no Signal instance is shared between
two `attack()` invocations.  In the code `sos`, `alarm` and `signal` are
allocated once in `nagios_hawk`'s body, outside `attack`; both the first
and the second `attack()` hand the watcher that same `signal` (allocation
id 2) — the composed Signal IS shared. -/
theorem attack_shares_signal_counterexample :
    (attack nagios_hawk_init).2.2 = (attack (attack nagios_hawk_init).1).2.2 ∧
    (attack nagios_hawk_init).2.2 = nagios_hawk_init.signalId := by
  decide

/-- C3 amended: every call to `attack()` constructs a brand-new
ChangeWatcher (`observer = Hawkeye(...)`, a fresh allocation each time, and
the controller holds it), but the Signal set is built once at
`nagios_hawk` construction and the very same composed Signal is handed to
the watcher of every `attack()` invocation. -/
theorem attack_fresh_watcher_shared_signal (c : HawkCtrl) :
    (attack c).2.1 ≠ (attack (attack c).1).2.1 ∧
    (attack c).1.observer = some (attack c).2.1 ∧
    (attack c).2.2 = (attack (attack c).1).2.2 ∧
    (attack c).2.2 = c.signalId := by
  refine ⟨?_, rfl, rfl, rfl⟩
  simp [attack]

/-- C4 counterexample: the claim says the cursor `i` equals 0 after every
`stop()` — including the implicit `stop()` at construction — for every
pattern of length at least 1.  With the two-character pattern consisting of
a space and a dash, the constructor's `stop()` sets `i = 0` and then runs
`update()`, which advances `i = (i + 1) % pattern.length`; the cursor ends
at 1, not 0. -/
theorem blinkStop_cursor_not_zero_counterexample :
    ((blinkInit ("sos-on") ("sos-off") ((" -").toList) env0).1.i = 1) ∧
    ¬ ((blinkInit ("sos-on") ("sos-off") ((" -").toList) env0).1.i = 0) := by
  decide

/-- C4 amended: after every call to `BlinkerSignal.stop()` — including the
implicit `stop()` performed at construction — the cursor `i` equals
`1 % pattern.length`: `stop()` resets the cursor to 0 and then the one
synchronous `update()` it performs (which paints from pattern position 0)
advances it, so the cursor is 0 after `stop()` exactly for patterns of
length 1. -/
theorem blinkStop_cursor_one_mod (onc offc : String) (pattern : List Char)
    (b : Blinker) (e : Env) :
    (blinkStop onc offc pattern b e).1.i = 1 % pattern.length ∧
    (blinkInit onc offc pattern e).1.i = 1 % pattern.length := by
  constructor
  · cases h : b.timer <;> simp [blinkStop, blinkUpdate, h]
  · simp [blinkInit, blinkStop, blinkUpdate]

/-- C5: for every BlinkerSignal with a nonempty pattern and any prior
state (any cursor value, i.e. any number of preceding `update()` ticks),
`stop()` leaves every target in the current collection showing the flag
combination of pattern position 0, and a second consecutive `stop()`
leaves every class list in the document exactly unchanged (stop is
idempotent in visible state). -/
theorem blinkStop_paints_position_zero (onc offc : String) (pattern : List Char)
    (b : Blinker) (e : Env) (hne : onc ≠ offc) (hp : pattern ≠ []) :
    (∀ tid ∈ b.targets,
      flagProp onc offc (pattern.getD 0 (Char.ofNat 32) == '-')
        ((blinkStop onc offc pattern b e).2.classes tid)) ∧
    (blinkStop onc offc pattern
        (blinkStop onc offc pattern b e).1 (blinkStop onc offc pattern b e).2).2.classes =
      (blinkStop onc offc pattern b e).2.classes := by
  have hcls := blinkStop_classes onc offc pattern b e
  constructor
  · intro tid htid
    rw [hcls, paintTargets_apply hne, if_pos htid]
    exact paintOne_flagProp hne _ _
  · have hcls2 := blinkStop_classes onc offc pattern
      (blinkStop onc offc pattern b e).1 (blinkStop onc offc pattern b e).2
    rw [hcls2, blinkStop_targets, hcls]
    funext tid
    rw [paintTargets_apply hne, paintTargets_apply hne]
    by_cases htid : tid ∈ b.targets
    · rw [if_pos htid, if_pos htid, paintOne_idem hne]
    · rw [if_neg htid, if_neg htid]

/-- C5 witness: a blinker over the pattern made of a space then a dash,
running (timer 5, cursor 3) with two targets; after `stop()` target 0
shows pattern position 0's combination (off-class set, on-class absent),
and a second `stop()` changes no class list. -/
theorem blinkStop_paints_position_zero_witness :
    flagProp ("sos-on") ("sos-off") (((" -").toList).getD 0 (Char.ofNat 32) == '-')
      ((blinkStop ("sos-on") ("sos-off") ((" -").toList)
          { timer := some 5, i := 3, targets := [0, 1] }
          { nextTimer := 6, active := [5], classes := fun _ => [] }).2.classes 0) ∧
    (blinkStop ("sos-on") ("sos-off") ((" -").toList)
        (blinkStop ("sos-on") ("sos-off") ((" -").toList)
          { timer := some 5, i := 3, targets := [0, 1] }
          { nextTimer := 6, active := [5], classes := fun _ => [] }).1
        (blinkStop ("sos-on") ("sos-off") ((" -").toList)
          { timer := some 5, i := 3, targets := [0, 1] }
          { nextTimer := 6, active := [5], classes := fun _ => [] }).2).2.classes =
      (blinkStop ("sos-on") ("sos-off") ((" -").toList)
          { timer := some 5, i := 3, targets := [0, 1] }
          { nextTimer := 6, active := [5], classes := fun _ => [] }).2.classes :=
  ⟨(blinkStop_paints_position_zero ("sos-on") ("sos-off") ((" -").toList)
      { timer := some 5, i := 3, targets := [0, 1] }
      { nextTimer := 6, active := [5], classes := fun _ => [] }
      (by decide) (by decide)).1 0 (by decide),
   (blinkStop_paints_position_zero ("sos-on") ("sos-off") ((" -").toList)
      { timer := some 5, i := 3, targets := [0, 1] }
      { nextTimer := 6, active := [5], classes := fun _ => [] }
      (by decide) (by decide)).2⟩

/-- C7 helper: `forEach` over a mapped list is `forEach` of the composed
function. -/
theorem forEachSt_map {α β σ ε : Type} (m : α → β) (f : β → σ → σ × Option ε)
    (l : List α) (s : σ) :
    forEachSt f (l.map m) s = forEachSt (fun a => f (m a)) l s := by
  induction l generalizing s with
  | nil => rfl
  | cons a l ih =>
    simp only [List.map_cons, forEachSt]
    rcases hfa : f (m a) s with ⟨s1, err⟩
    cases err
    · exact ih s1
    · rfl

/-- C7 helper: when the whole fan-out reports no error, the recorded trace
is exactly one `(id, op)` entry per sub-signal, in list order. -/
theorem forEachSt_instOp_ok {ρ ε : Type} (bhv : Nat → Nat → ρ → ρ × Option ε)
    (c : Nat) (ids : List Nat) (r : ρ) (tr : List (Nat × Nat))
    (h : (forEachSt (instOp bhv c) ids (r, tr)).2 = none) :
    (forEachSt (instOp bhv c) ids (r, tr)).1.2 = tr ++ ids.map (fun j => (j, c)) := by
  induction ids generalizing r tr with
  | nil => simp [forEachSt]
  | cons i ids ih =>
    rcases hb : bhv i c r with ⟨r1, err⟩
    cases err with
    | none =>
      have hstep : forEachSt (instOp bhv c) (i :: ids) (r, tr) =
          forEachSt (instOp bhv c) ids (r1, tr ++ [(i, c)]) := by
        simp [forEachSt, instOp, hb]
      rw [hstep] at h ⊢
      rw [ih r1 (tr ++ [(i, c)]) h]
      simp
    | some e0 =>
      have hstep : forEachSt (instOp bhv c) (i :: ids) (r, tr) =
          ((r1, tr ++ [(i, c)]), some e0) := by
        simp [forEachSt, instOp, hb]
      rw [hstep] at h
      simp at h

/-- C7 helper: when the fan-out over `pre` succeeds and sub-signal `i`'s
operation then fails, the result over `pre ++ i :: post` is that failure —
the sub-signals in `post` are never reached. -/
theorem forEachSt_instOp_fail {ρ ε : Type} (bhv : Nat → Nat → ρ → ρ × Option ε)
    (c : Nat) (pre : List Nat) :
    ∀ (r : ρ) (tr : List (Nat × Nat)) (r1 : ρ) (tr1 : List (Nat × Nat)),
      forEachSt (instOp bhv c) pre (r, tr) = ((r1, tr1), none) →
      ∀ (i : Nat) (r2 : ρ) (err : ε), bhv i c r1 = (r2, some err) →
      ∀ (post : List Nat),
        forEachSt (instOp bhv c) (pre ++ i :: post) (r, tr) =
          ((r2, tr1 ++ [(i, c)]), some err) := by
  induction pre with
  | nil =>
    intro r tr r1 tr1 hpre i r2 err hb post
    simp only [forEachSt, Prod.mk.injEq] at hpre
    obtain ⟨⟨hr, htr⟩, -⟩ := hpre
    subst hr; subst htr
    simp [forEachSt, instOp, hb]
  | cons a pre ih =>
    intro r tr r1 tr1 hpre i r2 err hb post
    rcases hba : bhv a c r with ⟨ra, erra⟩
    cases erra with
    | none =>
      have hstep : ∀ (rest : List Nat), forEachSt (instOp bhv c) (a :: rest) (r, tr) =
          forEachSt (instOp bhv c) rest (ra, tr ++ [(a, c)]) := by
        intro rest; simp [forEachSt, instOp, hba]
      rw [hstep pre] at hpre
      rw [List.cons_append, hstep (pre ++ i :: post)]
      exact ih ra (tr ++ [(a, c)]) r1 tr1 hpre i r2 err hb post
    | some e0 =>
      have hstep : forEachSt (instOp bhv c) (a :: pre) (r, tr) =
          ((ra, tr ++ [(a, c)]), some e0) := by
        simp [forEachSt, instOp, hba]
      rw [hstep] at hpre
      simp at hpre

/-- C7: for every ordered list of sub-signals (instrumented with an
invocation-order recorder) and each of the four operations
(`c` = 0 start, 1 stop, 2 add, 3 empty), the composed operation invokes
the corresponding operation of every sub-signal in list order — an
error-free run appends exactly one trace entry per sub-signal, in order —
and when one sub-signal's operation fails, the fan-out's result is that
failure with the trace ending at the failing sub-signal: the sub-signals
after it in the list are not invoked for that operation (the result does
not depend on `post` at all). -/
theorem compose_in_order_and_stops_at_failure {ρ ε : Type}
    (bhv : Nat → Nat → ρ → ρ × Option ε) (c : Nat) (hc : c < 4)
    (ids pre post : List Nat) (i : Nat) (r r1 r2 : ρ)
    (tr tr1 : List (Nat × Nat)) (err : ε) :
    ((opApply c (ComposeSignal (ids.map (recSig bhv))) (r, tr)).2 = none →
      (opApply c (ComposeSignal (ids.map (recSig bhv))) (r, tr)).1.2 =
        tr ++ ids.map (fun j => (j, c))) ∧
    (opApply c (ComposeSignal (pre.map (recSig bhv))) (r, tr) = ((r1, tr1), none) →
      bhv i c r1 = (r2, some err) →
      opApply c (ComposeSignal ((pre ++ i :: post).map (recSig bhv))) (r, tr) =
        ((r2, tr1 ++ [(i, c)]), some err)) := by
  have key : ∀ (l : List Nat) (w : ρ × List (Nat × Nat)),
      opApply c (ComposeSignal (l.map (recSig bhv))) w = forEachSt (instOp bhv c) l w := by
    intro l w
    interval_cases c <;> exact forEachSt_map (recSig bhv) _ l w
  constructor
  · intro h
    rw [key] at h ⊢
    exact forEachSt_instOp_ok bhv c ids r tr h
  · intro h1 h2
    rw [key] at h1 ⊢
    exact forEachSt_instOp_fail bhv c pre r tr r1 tr1 h1 i r2 err h2 post

/-- C7 witness behaviour: every sub-signal increments the shared counter;
sub-signal 7 fails every operation, all others succeed. -/
def bhvW : Nat → Nat → Nat → Nat × Option Nat :=
  fun i _ r => (r + 1, if i = 7 then some 0 else none)

/-- C7 witness: composing the recorders for sub-signals 1 and 2, `start`
records (1, start) then (2, start) in order; composing 1, 7, 9 where 7
fails, the run stops at 7 — sub-signal 9 is never invoked. -/
theorem compose_in_order_and_stops_at_failure_witness :
    (opApply 0 (ComposeSignal (([1, 2] : List Nat).map (recSig bhvW)))
        (0, ([] : List (Nat × Nat)))).1.2 = [(1, 0), (2, 0)] ∧
    opApply 0 (ComposeSignal ((([1] : List Nat) ++ 7 :: [9]).map (recSig bhvW)))
        (0, ([] : List (Nat × Nat))) = ((2, [(1, 0), (7, 0)]), some 0) :=
  ⟨(compose_in_order_and_stops_at_failure bhvW 0 (by decide) [1, 2] [1] [9] 7
      0 1 2 [] [(1, 0)] 0).1 (by decide),
   (compose_in_order_and_stops_at_failure bhvW 0 (by decide) [1, 2] [1] [9] 7
      0 1 2 [] [(1, 0)] 0).2 (by decide) (by decide)⟩

/-- C9: a playback failure on a periodic tick of a started AudioSignal
never cancels the periodic replay schedule.  The interval callback is
`function() { audio.play(); }`: it never touches the timer handle, so
whether or not `play()` fails on this tick, the armed timer, the
live-interval list and the allocation counter are unchanged — subsequent
ticks still fire — and the failure is surfaced only as this tick's error. -/
theorem audioTick_keeps_schedule (playFails : Bool) (a : AudioSig) (e : Env) :
    ((audioTick playFails a e).1.1.timer = a.timer) ∧
    ((audioTick playFails a e).1.2.active = e.active) ∧
    ((audioTick playFails a e).1.2.nextTimer = e.nextTimer) ∧
    ((audioTick true a e).2 = some ("play failed")) := by
  cases playFails <;> simp [audioTick, audioPlay]

/-- C6 helper: start as a transformer on the (signal, environment) pair. -/
def audioStartP (p : AudioSig × Env) : AudioSig × Env := audioStart p.1 p.2

/-- C6 helper: start as a transformer on the (signal, environment) pair. -/
def blinkStartP (p : Blinker × Env) : Blinker × Env := blinkStart p.1 p.2

/-- C6: `start()` is idempotent on AudioSignal and on BlinkerSignal — the
second of two consecutive `start()` calls changes nothing at all (no
observable effect beyond the first) — and starting twice from an unarmed
signal with no live interval leaves exactly one live interval (no
duplicate timers). -/
theorem start_idempotent_single_schedule (a : AudioSig) (b : Blinker) (ea eb : Env) :
    audioStartP (audioStartP (a, ea)) = audioStartP (a, ea) ∧
    blinkStartP (blinkStartP (b, eb)) = blinkStartP (b, eb) ∧
    (a.timer = none → ea.active = [] →
      ((audioStartP (audioStartP (a, ea))).2.active).length = 1) ∧
    (b.timer = none → eb.active = [] →
      ((blinkStartP (blinkStartP (b, eb))).2.active).length = 1) := by
  refine ⟨?_, ?_, fun ha he => ?_, fun hb he => ?_⟩
  · cases h : a.timer <;> simp [audioStartP, audioStart, h]
  · cases h : b.timer <;> simp [blinkStartP, blinkStart, h]
  · simp [audioStartP, audioStart, ha, he]
  · simp [blinkStartP, blinkStart, hb, he]

/-- C6 witness: from a freshly built audio signal and blinker over the
empty environment, two consecutive `start()` calls leave exactly one live
interval each. -/
theorem start_idempotent_single_schedule_witness :
    ((audioStartP (audioStartP
        ({ timer := none, targets := [], plays := 0, playing := false }, env0))).2.active).length = 1 ∧
    ((blinkStartP (blinkStartP
        ({ timer := none, i := 0, targets := [] }, env0))).2.active).length = 1 :=
  ⟨(start_idempotent_single_schedule
      { timer := none, targets := [], plays := 0, playing := false }
      { timer := none, i := 0, targets := [] } env0 env0).2.2.1 rfl rfl,
   (start_idempotent_single_schedule
      { timer := none, targets := [], plays := 0, playing := false }
      { timer := none, i := 0, targets := [] } env0 env0).2.2.2 rfl rfl⟩

/-- C8 helper: the blinker's timer handle is cleared by `stop()`. -/
theorem blinkStop_timer (onc offc : String) (pattern : List Char) (b : Blinker)
    (e : Env) : (blinkStop onc offc pattern b e).1.timer = none := by
  cases h : b.timer <;> simp [blinkStop, blinkUpdate, h]

/-- C8 helper: the alarm's timer handle is cleared by `stop()`. -/
theorem audioStop_timer (a : AudioSig) (e : Env) : (audioStop a e).1.timer = none := by
  cases h : a.timer <;> simp [audioStop, h]

/-- C8 helper: with the observer subscription gone, a structural-change
notification is a no-op on the whole system state. -/
theorem deliverChange_not_observing (now : Nat) (s : Sys) (h : s.observing = false) :
    deliverChange now s = s := by
  simp [deliverChange, h]

/-- C8: after `disconnect()` returns (from any well-formed state), no live
interval remains (the live list is empty and both signals are unarmed), no
subscription of the watcher remains (the observer subscription and the
source's click handler are gone, and no watcher target keeps a click
handler), and any later structural-change notification delivered on the
source leaves the system state — timers, signal states, every target's
visual flags — exactly unchanged. -/
theorem hawk_disconnect_clean (onc offc : String) (pattern : List Char) (T : List Nat)
    (s : Sys) (hwf : wf s) :
    (disconnect onc offc pattern T s).env.active = [] ∧
    (disconnect onc offc pattern T s).sos.timer = none ∧
    (disconnect onc offc pattern T s).alarm.timer = none ∧
    (disconnect onc offc pattern T s).observing = false ∧
    (disconnect onc offc pattern T s).sourceClick = false ∧
    (∀ tid ∈ T, tid ∉ (disconnect onc offc pattern T s).clickSubs) ∧
    (∀ now, deliverChange now (disconnect onc offc pattern T s) =
      disconnect onc offc pattern T s) := by
  obtain ⟨hact, hdis⟩ := hwf
  refine ⟨?_, ?_, ?_, ?_, ?_, ?_, ?_⟩
  · simp only [disconnect, sigEmpty, sigStop]
    rcases hs : s.sos.timer with _ | t1 <;> rcases ha : s.alarm.timer with _ | t2 <;>
      rw [hs, ha] at hact <;> simp at hact
    · simp [blinkStop, blinkUpdate, audioStop, hs, ha, hact]
    · simp [blinkStop, blinkUpdate, audioStop, hs, ha, hact]
    · simp [blinkStop, blinkUpdate, audioStop, hs, ha, hact]
    · have hne : t1 ≠ t2 := by
        rcases hdis with h | h | h
        · rw [hs] at h; cases h
        · rw [ha] at h; cases h
        · rw [hs, ha] at h; simpa using h
      simp [blinkStop, blinkUpdate, audioStop, hs, ha, hact, hne, Ne.symm hne]
  · simp [disconnect, sigEmpty, sigStop, blinkEmpty, blinkStop_timer]
  · simp [disconnect, sigEmpty, sigStop, audioEmpty, audioStop_timer]
  · simp [disconnect, sigEmpty, sigStop]
  · simp [disconnect, sigEmpty, sigStop]
  · intro tid htid
    simp only [disconnect, sigEmpty, sigStop, List.mem_filter]
    rintro ⟨-, hcon⟩
    simp [htid] at hcon
  · intro now
    refine deliverChange_not_observing now _ ?_
    simp [disconnect, sigEmpty, sigStop]

/-- C8 witness scenario: a watcher over target 0 is connected at `mark
0`; the initial (too early) change notification at t = 5000 is dropped by
the debounce, a second at t = 6000 arms both signals. -/
def hawkScenario : Sys :=
  deliverChange 6000 (deliverChange 5000
    (connect [0] (hawkInit ("sos-on") ("sos-off") ((" -").toList) 0)))

/-- C8 witness: disconnecting the armed scenario leaves the live-interval
list empty, and a spurious structural-change notification delivered at
t = 9999 after the disconnect changes nothing at all. -/
theorem hawk_disconnect_clean_witness :
    (disconnect ("sos-on") ("sos-off") ((" -").toList) [0] hawkScenario).env.active = [] ∧
    deliverChange 9999 (disconnect ("sos-on") ("sos-off") ((" -").toList) [0] hawkScenario) =
      disconnect ("sos-on") ("sos-off") ((" -").toList) [0] hawkScenario :=
  ⟨(hawk_disconnect_clean ("sos-on") ("sos-off") ((" -").toList) [0] hawkScenario
      (by constructor <;> decide)).1,
   (hawk_disconnect_clean ("sos-on") ("sos-off") ((" -").toList) [0] hawkScenario
      (by constructor <;> decide)).2.2.2.2.2.2 9999⟩

/-- C10: `AudioSignal.stop()` only cancels the periodic replay schedule
(the timer handle becomes undefined and the interval is removed from the
live list); it never touches the audio resource — the play count, the
playing-in-progress flag, the target collection, all class lists and the
allocation counter are exactly as before, so a playback already in
progress continues. -/
theorem audioStop_frame (a : AudioSig) (e : Env) :
    (audioStop a e).1.playing = a.playing ∧
    (audioStop a e).1.plays = a.plays ∧
    (audioStop a e).1.targets = a.targets ∧
    (audioStop a e).1.timer = none ∧
    (audioStop a e).2.classes = e.classes ∧
    (audioStop a e).2.nextTimer = e.nextTimer := by
  cases h : a.timer <;> simp [audioStop, h]

end Hawkeye
